import Mathlib

/-!
Verification of the poststratification table builder (`src/lib/tableBuilder.js`)
and the census recoding helpers (`recodeHelpers`, provided as
`src/unnamed/part_001`).

Embedding conventions:
* A raw geography record (one row of the Census response) is a total function
  from field name to a JavaScript value.  The census client builds rows as
  objects whose values are the strings (or nulls) of the JSON response, so the
  value space is: `undefined` (absent property), `null`, or a string.
* JavaScript numbers produced by `parseInt(·, 10)` on count fields are
  integers or `NaN`; they are embedded as `Option Int` with `none` playing the
  role of `NaN` (`NaN` is absorbing for `+`, `*`, `/`, and every comparison
  with `NaN` is false).  Integer counts and their sums are far below 2^53, so
  integer arithmetic on them is exact in both JavaScript and this embedding.
* The proportions `ageCount/totalAge` etc. and their product are computed by
  the source in IEEE double precision; they are embedded as exact rational
  arithmetic (`ℚ`).  `Math.round` on a finite value `x` is `⌊x + 1/2⌋`.
* Code that throws (`fipsToState`, `getRegion`, hence `parseDistrict`) is
  embedded with `Except String`, the error string being the thrown message.
-/

/-- A JavaScript value as it can occur in a raw census row: an absent
property (`undefined`), `null`, or a string.  (The census client fills rows
from the JSON body of the API response, whose entries are strings or null.) -/
inductive JsVal where
  | undef : JsVal
  | nullv : JsVal
  | str : String → JsVal
deriving DecidableEq

/-- A raw geography record: total map from field name to JavaScript value. -/
def Row : Type := String → JsVal

/-- JavaScript string coercion of a row value (as performed by template
literals and by property-key coercion). -/
def jsToString : JsVal → String
  | JsVal.undef => "undefined"
  | JsVal.nullv => "null"
  | JsVal.str s => s

/-- Whether a row value is a string. -/
def isStrVal : JsVal → Bool
  | JsVal.str _ => true
  | _ => false

/-- Numeric value of a list of decimal digit characters. -/
def digitsVal (cs : List Char) : Nat :=
  cs.foldl (fun acc c => acc * 10 + (c.toNat - '0'.toNat)) 0

/-- Leading decimal-digit run of a character list, as a number; `none` when
there is no leading digit (JavaScript `parseInt` then yields `NaN`). -/
def parseDigits (cs : List Char) : Option Nat :=
  let ds := cs.takeWhile (fun c => c.isDigit)
  if ds.isEmpty then none else some (digitsVal ds)

/-- JavaScript `parseInt(s, 10)`: skip leading whitespace, optional sign,
then the leading decimal-digit run; `NaN` (here `none`) when no digits. -/
def parseIntStr (s : String) : Option Int :=
  let cs := s.data.dropWhile (fun c => c == ' ' || c == '\t' || c == '\n' || c == '\r')
  match cs with
  | '-' :: rest => (parseDigits rest).map (fun n => -(n : Int))
  | '+' :: rest => (parseDigits rest).map (fun n => (n : Int))
  | rest => (parseDigits rest).map (fun n => (n : Int))

/-- The recode helpers' field reader `parseInt(row[key] || 0, 10)`:
`undefined`, `null` and `""` are falsy, so they are replaced by the number `0`
(which `parseInt` turns back into `0`); any other string goes through
`parseInt` and may come out as `NaN` (`none`). -/
def getValue (row : Row) (key : String) : Option Int :=
  match row key with
  | JsVal.undef => some 0
  | JsVal.nullv => some 0
  | JsVal.str s => if s = "" then some 0 else parseIntStr s

/-- JavaScript `+` on numbers restricted to integers-or-NaN. -/
def nadd : Option Int → Option Int → Option Int
  | some a, some b => some (a + b)
  | _, _ => none

/-- `Object.values(·).reduce((a, b) => a + b, 0)`. -/
def nsum (l : List (Option Int)) : Option Int :=
  l.foldl nadd (some 0)

/-- JavaScript string `padStart(3, '0')`. -/
def padStart3 (s : String) : String :=
  String.mk (List.replicate (3 - s.length) '0') ++ s

/-- The template `` `B01001_${String(n).padStart(3, '0')}E` ``. -/
def b01001Key (n : Nat) : String :=
  "B01001_" ++ padStart3 (toString n) ++ "E"

/-- `recodeAge` from the recode helpers: six canonical age-group counts,
keyed in object-insertion order, each the sum of its fixed set of raw
B01001 buckets; female field codes are the male ones shifted by 24. -/
def recodeAge (row : Row) (sex : String) : List (String × Option Int) :=
  let offset := if sex = "Male" then 0 else 24
  let g := fun n => getValue row (b01001Key (n + offset))
  [("18-24", nadd (nadd (nadd (g 7) (g 8)) (g 9)) (g 10)),
   ("25-34", nadd (g 11) (g 12)),
   ("35-44", nadd (g 13) (g 14)),
   ("45-54", nadd (g 15) (g 16)),
   ("55-64", nadd (nadd (g 17) (g 18)) (g 19)),
   ("65+", nadd (nadd (nadd (nadd (nadd (g 20) (g 21)) (g 22)) (g 23)) (g 24)) (g 25))]

/-- `recodeRace` from the recode helpers: five canonical race/ethnicity
counts in object-insertion order. -/
def recodeRace (row : Row) : List (String × Option Int) :=
  [("White", getValue row "B03002_003E"),
   ("Black", getValue row "B03002_004E"),
   ("Hispanic", getValue row "B03002_012E"),
   ("Asian", getValue row "B03002_006E"),
   ("Other",
      nadd (nadd (nadd (getValue row "B03002_005E") (getValue row "B03002_007E"))
        (getValue row "B03002_008E")) (getValue row "B03002_009E"))]

/-- `recodeEducation` from the recode helpers: five canonical attainment
counts in object-insertion order. -/
def recodeEducation (row : Row) : List (String × Option Int) :=
  [("Less Than HS",
      nadd (nadd (nadd (nadd (nadd (nadd (nadd (nadd (nadd (nadd (nadd (nadd (nadd
        (nadd (getValue row "B15003_002E") (getValue row "B15003_003E"))
        (getValue row "B15003_004E")) (getValue row "B15003_005E"))
        (getValue row "B15003_006E")) (getValue row "B15003_007E"))
        (getValue row "B15003_008E")) (getValue row "B15003_009E"))
        (getValue row "B15003_010E")) (getValue row "B15003_011E"))
        (getValue row "B15003_012E")) (getValue row "B15003_013E"))
        (getValue row "B15003_014E")) (getValue row "B15003_015E"))
        (getValue row "B15003_016E")),
   ("High School", nadd (getValue row "B15003_017E") (getValue row "B15003_018E")),
   ("Some College",
      nadd (nadd (getValue row "B15003_019E") (getValue row "B15003_020E"))
        (getValue row "B15003_021E")),
   ("BA/BS", getValue row "B15003_022E"),
   ("Post-Grad",
      nadd (nadd (getValue row "B15003_023E") (getValue row "B15003_024E"))
        (getValue row "B15003_025E"))]

/-- The static `RECODE_SPECS` object: category levels per dimension and the
state-to-region mapping. -/
structure RecodeSpecsT where
  ageGroupLevels : List String
  sexLevels : List String
  raceEthLevels : List String
  educationLevels : List String
  censusRegionLevels : List String
  censusRegionMapping : List (String × List String)

def RECODE_SPECS : RecodeSpecsT :=
  { ageGroupLevels := ["18-24", "25-34", "35-44", "45-54", "55-64", "65+"]
    sexLevels := ["Female", "Male"]
    raceEthLevels := ["White", "Black", "Hispanic", "Asian", "Other"]
    educationLevels := ["Less Than HS", "High School", "Some College", "BA/BS", "Post-Grad"]
    censusRegionLevels := ["Northeast", "Midwest", "South", "West", "DC"]
    censusRegionMapping :=
      [("Northeast", ["CT", "ME", "MA", "NH", "RI", "VT", "NJ", "NY", "PA"]),
       ("Midwest", ["IL", "IN", "MI", "OH", "WI", "IA", "KS", "MN", "MO", "NE", "ND", "SD"]),
       ("South", ["DE", "FL", "GA", "MD", "NC", "SC", "VA", "WV", "AL", "KY", "MS", "TN",
                  "AR", "LA", "OK", "TX"]),
       ("West", ["AZ", "CO", "ID", "MT", "NV", "NM", "UT", "WY", "AK", "CA", "HI", "OR", "WA"]),
       ("DC", ["DC"])] }

/-- `getRegion`'s scan over `Object.entries(RECODE_SPECS.censusRegion.mapping)`:
first region whose state list contains the code, else the thrown
"Unknown state code" error. -/
def findRegion (code : String) : List (String × List String) → Except String String
  | [] => Except.error ("Unknown state code: " ++ code)
  | (region, states) :: rest =>
      if code ∈ states then Except.ok region else findRegion code rest

/-- `getRegion` from the recode helpers. -/
def getRegion (code : String) : Except String String :=
  findRegion code RECODE_SPECS.censusRegionMapping

/-- The `FIPS_TO_STATE` table, in object-insertion order. -/
def FIPS_TO_STATE : List (String × String) :=
  [("01", "AL"), ("02", "AK"), ("04", "AZ"), ("05", "AR"), ("06", "CA"),
   ("08", "CO"), ("09", "CT"), ("10", "DE"), ("11", "DC"), ("12", "FL"),
   ("13", "GA"), ("15", "HI"), ("16", "ID"), ("17", "IL"), ("18", "IN"),
   ("19", "IA"), ("20", "KS"), ("21", "KY"), ("22", "LA"), ("23", "ME"),
   ("24", "MD"), ("25", "MA"), ("26", "MI"), ("27", "MN"), ("28", "MS"),
   ("29", "MO"), ("30", "MT"), ("31", "NE"), ("32", "NV"), ("33", "NH"),
   ("34", "NJ"), ("35", "NM"), ("36", "NY"), ("37", "NC"), ("38", "ND"),
   ("39", "OH"), ("40", "OK"), ("41", "OR"), ("42", "PA"), ("44", "RI"),
   ("45", "SC"), ("46", "SD"), ("47", "TN"), ("48", "TX"), ("49", "UT"),
   ("50", "VT"), ("51", "VA"), ("53", "WA"), ("54", "WV"), ("55", "WI"),
   ("56", "WY"), ("72", "PR")]

/-- `fipsToState` from the recode helpers: table lookup, throwing
"Unknown FIPS code" on a miss. -/
def fipsToState (fips : String) : Except String String :=
  match FIPS_TO_STATE.lookup fips with
  | some st => Except.ok st
  | none => Except.error ("Unknown FIPS code: " ++ fips)

/-- Result shape of `parseDistrict`. -/
structure District where
  state : String
  cd : String
  cdNumber : String
deriving DecidableEq

/-- `parseDistrict` from the recode helpers.  The raw `state` value is
coerced to a property key for the FIPS lookup; the raw district code is kept
as-is by the `'00'` conditional (whose two branches coincide for strings) and
coerced to a string by the `` `${state}-${cdFormatted}` `` template. -/
def parseDistrict (row : Row) : Except String District :=
  let stateFips := jsToString (row "state")
  let cdNumber := row "congressional district"
  match fipsToState stateFips with
  | Except.error e => Except.error e
  | Except.ok state =>
      let cdFormatted := if cdNumber = JsVal.str "00" then "00" else jsToString cdNumber
      Except.ok { state := state, cd := state ++ "-" ++ cdFormatted, cdNumber := cdFormatted }

/-- One output cell of the builder. -/
structure Cell where
  year : Int
  state : String
  cd : String
  ageGroup : String
  sex : String
  raceEth : String
  education : String
  censusRegion : String
  population : Int
deriving DecidableEq

/-- JavaScript number-or-NaN as a rational: the factors of the proportional
allocation product. -/
def toQnum : Option Int → Option ℚ
  | some n => some (n : ℚ)
  | none => none

/-- JavaScript `*` restricted to the (finite) values that occur here. -/
def nmul : Option ℚ → Option ℚ → Option ℚ
  | some a, some b => some (a * b)
  | _, _ => none

/-- JavaScript `/` on a count by a marginal total.  The builder only divides
after checking the total against `0`, so the divisor is a nonzero integer (or
`NaN`); the infinite quotients of a zero divisor are unreachable and are not
modelled. -/
def ndiv : Option Int → Option Int → Option ℚ
  | some a, some b => some ((a : ℚ) / (b : ℚ))
  | _, _ => none

/-- `Math.round` on a finite value: floor of `x + 1/2` (halves go up). -/
def jsRound (x : ℚ) : Int := Int.floor (x + 1 / 2)

/-- Rounding to the nearest integer with halves away from zero, as the spec
words the rounding rule. -/
def roundHalfAway (x : ℚ) : Int :=
  if x < 0 then -Int.floor (-x + 1 / 2) else Int.floor (x + 1 / 2)

/-- Body of the builder's innermost loop for one (age, race, education)
combination: skip when a marginal total is `0`, otherwise round the
proportional-allocation product `totalAge * ageProp * raceProp * eduProp`
(left-associated, as in the source) and keep the cell only when the rounded
population is strictly positive.  A `NaN` product compares false with `0`, so
it also produces no cell. -/
def cellBody (year : Int) (st cd rg sex : String)
    (totalAge totalRace totalEdu : Option Int)
    (p q t : String × Option Int) : Option Cell :=
  if totalAge = some 0 ∨ totalRace = some 0 ∨ totalEdu = some 0 then none
  else
    match nmul (nmul (nmul (toQnum totalAge) (ndiv p.2 totalAge))
        (ndiv q.2 totalRace)) (ndiv t.2 totalEdu) with
    | none => none
    | some x =>
        if 0 < jsRound x then
          some { year := year, state := st, cd := cd, ageGroup := p.1, sex := sex,
                 raceEth := q.1, education := t.1, censusRegion := rg,
                 population := jsRound x }
        else none

/-- The triple `Object.entries` loop of the builder for one geography and
sex.  The marginal totals are loop-invariant; the source recomputes them
inside the innermost loop, here they are computed once with the same value. -/
def crossCells (year : Int) (st cd rg sex : String)
    (ageCounts raceCounts eduCounts : List (String × Option Int)) : List Cell :=
  let totalAge := nsum (ageCounts.map Prod.snd)
  let totalRace := nsum (raceCounts.map Prod.snd)
  let totalEdu := nsum (eduCounts.map Prod.snd)
  ageCounts.flatMap fun p =>
    raceCounts.flatMap fun q =>
      eduCounts.filterMap fun t =>
        cellBody year st cd rg sex totalAge totalRace totalEdu p q t

/-- The cells the builder generates for one geography and one sex. -/
def sexSliceCells (year : Int) (st cd rg : String) (row : Row) (sex : String) : List Cell :=
  crossCells year st cd rg sex (recodeAge row sex) (recodeRace row) (recodeEducation row)

/-- The cells of one iteration of the builder's geography loop: resolve the
district and region (either may throw), then cross-tabulate for each sex in
the order `['Female', 'Male']`. -/
def rowCells (year : Int) (row : Row) : Except String (List Cell) :=
  match parseDistrict row with
  | Except.error e => Except.error e
  | Except.ok d =>
      match getRegion d.state with
      | Except.error e => Except.error e
      | Except.ok rg =>
          Except.ok (List.flatMap ["Female", "Male"] fun sex =>
            sexSliceCells year d.state d.cd rg row sex)

/-- The `try/catch` accounting of the geography loop: an error increments
`skippedDistricts`, success appends the geography's cells. -/
def buildStep (year : Int) (acc : List Cell × Nat) (row : Row) : List Cell × Nat :=
  match rowCells year row with
  | Except.ok cs => (acc.1 ++ cs, acc.2)
  | Except.error _ => (acc.1, acc.2 + 1)

/-- The builder's geography loop: final cell list and skipped count. -/
def buildLoop (year : Int) (rows : List Row) : List Cell × Nat :=
  rows.foldl (buildStep year) ([], 0)

/-- `rowCells` seen as an `Option`, for stating the skip accounting. -/
def okCells (year : Int) (row : Row) : Option (List Cell) :=
  match rowCells year row with
  | Except.ok cs => some cs
  | Except.error _ => none

/-- The builder's `batchSize` constant. -/
def batchSize : Nat := 5000

/-- The storage loop's `storedCount` accumulation: sum of the lengths of the
`cells.slice(i, i + batchSize)` batches. -/
def batchLoop : List Cell → Nat
  | [] => 0
  | c :: rest =>
      ((c :: rest).take batchSize).length + batchLoop ((c :: rest).drop batchSize)
termination_by l => l.length
decreasing_by
  simp only [List.length_drop, List.length_cons, batchSize]
  omega

/-- The `dimensions` block of the build result. -/
structure Dimensions where
  ageGroups : Nat
  sexes : Nat
  raceEth : Nat
  education : Nat
  censusRegions : Nat
deriving DecidableEq

/-- The statistics object returned by `buildPoststratTable`. -/
structure BuildResult where
  success : Bool
  year : Int
  districtsProcessed : Int
  districtsSkipped : Nat
  cellsGenerated : Nat
  cellsStored : Nat
  dimensions : Dimensions
deriving DecidableEq

/-- `buildPoststratTable` (its pure content: the generated cells' statistics;
persistence is the external store's concern). -/
def buildPoststratTable (year : Int) (censusData : List Row) : BuildResult :=
  let res := buildLoop year censusData
  { success := true
    year := year
    districtsProcessed := (censusData.length : Int) - (res.2 : Int)
    districtsSkipped := res.2
    cellsGenerated := res.1.length
    cellsStored := batchLoop res.1
    dimensions :=
      { ageGroups := RECODE_SPECS.ageGroupLevels.length
        sexes := RECODE_SPECS.sexLevels.length
        raceEth := RECODE_SPECS.raceEthLevels.length
        education := RECODE_SPECS.educationLevels.length
        censusRegions := RECODE_SPECS.censusRegionLevels.length } }

/-- The identity key of a cell. -/
def cellKey (c : Cell) :
    Int × String × String × String × String × String × String × String :=
  (c.year, c.state, c.cd, c.ageGroup, c.sex, c.raceEth, c.education, c.censusRegion)

/-- The raw geographic identity of a record: its `state` and
`congressional district` field values. -/
def rawGeoKey (row : Row) : JsVal × JsVal :=
  (row "state", row "congressional district")

/-- Row construction as done by the census client: an object built from
header/value pairs; absent fields are `undefined`. -/
def mkRow (l : List (String × String)) : Row := fun k =>
  match l.lookup k with
  | some v => JsVal.str v
  | none => JsVal.undef

/-- The record with every field absent. -/
def emptyRow : Row := fun _ => JsVal.undef

/-- The synthetic single-district record of the spec's end-to-end example:
Texas district 32, male 18-19 count 1000, White-alone-not-Hispanic 2000,
Bachelor's 1500, everything else absent. -/
def row0 : Row :=
  mkRow [("state", "48"), ("congressional district", "32"),
         ("B01001_007E", "1000"), ("B03002_003E", "2000"), ("B15003_022E", "1500")]

/-- A record whose White-alone count field holds a non-numeric string. -/
def rowAbc : Row := mkRow [("B03002_003E", "abc")]

/-- The single cell the spec's end-to-end example expects from `row0`. -/
def c0row : Cell :=
  { year := 2023, state := "TX", cd := "TX-32", ageGroup := "18-24", sex := "Male",
    raceEth := "White", education := "BA/BS", censusRegion := "South", population := 1000 }

/-- Whether a region lookup succeeded (did not throw). -/
def exOk : Except String String → Bool
  | Except.ok _ => true
  | Except.error _ => false

/-! ### Arithmetic helper lemmas: NaN-absorbing sums and products, rounding -/

theorem nadd_zero_left (x : Option Int) : nadd (some 0) x = x := by
  cases x <;> simp [nadd]

theorem nadd_assoc (a b c : Option Int) : nadd (nadd a b) c = nadd a (nadd b c) := by
  cases a <;> cases b <;> cases c <;> simp [nadd, Int.add_assoc]

theorem nmul_none_left (y : Option ℚ) : nmul none y = none := by cases y <;> rfl

theorem nmul_none_right (x : Option ℚ) : nmul x none = none := by cases x <;> rfl

theorem jsRound_zero : jsRound 0 = 0 := by
  unfold jsRound
  norm_num

theorem jsRound_intCast (n : Int) : jsRound ((n : ℚ)) = n := by
  unfold jsRound
  rw [Int.floor_eq_iff]
  constructor <;> norm_num

theorem jsRound_pos_iff (x : ℚ) : 0 < jsRound x ↔ 1 / 2 ≤ x := by
  unfold jsRound
  rw [Int.lt_iff_add_one_le, zero_add, Int.le_floor]
  push_cast
  constructor <;> intro h <;> linarith

theorem roundHalfAway_pos_iff (x : ℚ) : 0 < roundHalfAway x ↔ 1 / 2 ≤ x := by
  unfold roundHalfAway
  split
  · rename_i hx
    constructor
    · intro h
      exfalso
      have h0 : ((0 : ℤ) : ℚ) ≤ -x + 1 / 2 := by push_cast; linarith
      have := Int.le_floor.mpr h0
      omega
    · intro h; linarith
  · rename_i hx
    rw [Int.lt_iff_add_one_le, zero_add, Int.le_floor]
    push_cast
    constructor <;> intro h <;> linarith

theorem roundHalfAway_eq_jsRound (x : ℚ) (h : 0 ≤ x) : roundHalfAway x = jsRound x := by
  unfold roundHalfAway jsRound
  rw [if_neg (not_lt.mpr h)]

/-! ### Recode-engine helper lemmas -/

theorem recodeAge_labels (row : Row) (sex : String) :
    (recodeAge row sex).map Prod.fst =
      ["18-24", "25-34", "35-44", "45-54", "55-64", "65+"] := rfl

theorem recodeRace_labels (row : Row) :
    (recodeRace row).map Prod.fst = ["White", "Black", "Hispanic", "Asian", "Other"] := rfl

theorem recodeEducation_labels (row : Row) :
    (recodeEducation row).map Prod.fst =
      ["Less Than HS", "High School", "Some College", "BA/BS", "Post-Grad"] := rfl

theorem snd_unique {l : List (String × Option Int)} (hn : (l.map Prod.fst).Nodup)
    {a : String} {x y : Option Int} (hx : (a, x) ∈ l) (hy : (a, y) ∈ l) : x = y := by
  induction l with
  | nil => cases hx
  | cons p rest ih =>
    rw [List.map_cons, List.nodup_cons] at hn
    rcases List.mem_cons.mp hx with h1 | h1 <;> rcases List.mem_cons.mp hy with h2 | h2
    · rw [← h1] at h2; exact (Prod.mk.injEq _ _ _ _ ▸ h2).2.symm
    · exfalso
      rw [← h1] at hn
      exact hn.1 (List.mem_map.mpr ⟨(a, y), h2, rfl⟩)
    · exfalso
      rw [← h2] at hn
      exact hn.1 (List.mem_map.mpr ⟨(a, x), h1, rfl⟩)
    · exact ih hn.2 h1 h2

/-! ### Cross-tabulation helper lemmas -/

theorem mem_crossCells {year : Int} {st cd rg sex : String}
    {AC RC EC : List (String × Option Int)} {c : Cell} :
    c ∈ crossCells year st cd rg sex AC RC EC ↔
      ∃ p ∈ AC, ∃ q ∈ RC, ∃ t ∈ EC,
        cellBody year st cd rg sex (nsum (AC.map Prod.snd)) (nsum (RC.map Prod.snd))
          (nsum (EC.map Prod.snd)) p q t = some c := by
  unfold crossCells
  simp [List.mem_flatMap, List.mem_filterMap]

theorem cellBody_some_fields {year : Int} {st cd rg sex : String} {TA TR TE : Option Int}
    {p q t : String × Option Int} {c : Cell}
    (h : cellBody year st cd rg sex TA TR TE p q t = some c) :
    c.year = year ∧ c.state = st ∧ c.cd = cd ∧ c.ageGroup = p.1 ∧ c.sex = sex ∧
      c.raceEth = q.1 ∧ c.education = t.1 ∧ c.censusRegion = rg := by
  unfold cellBody at h
  split at h
  · cases h
  · split at h
    · cases h
    · split at h
      · cases h
        exact ⟨rfl, rfl, rfl, rfl, rfl, rfl, rfl, rfl⟩
      · cases h

theorem cellBody_some_char {year : Int} {st cd rg sex : String}
    {ta tr te ac rc ec : Int} (h1 : ta ≠ 0) (h2 : tr ≠ 0) (h3 : te ≠ 0)
    {a r e : String} {c : Cell} :
    cellBody year st cd rg sex (some ta) (some tr) (some te)
        (a, some ac) (r, some rc) (e, some ec) = some c
      ↔ 0 < jsRound ((ta : ℚ) * ((ac : ℚ) / ta) * ((rc : ℚ) / tr) * ((ec : ℚ) / te))
        ∧ c = { year := year, state := st, cd := cd, ageGroup := a, sex := sex, raceEth := r,
                education := e, censusRegion := rg,
                population :=
                  jsRound ((ta : ℚ) * ((ac : ℚ) / ta) * ((rc : ℚ) / tr) * ((ec : ℚ) / te)) } := by
  unfold cellBody
  rw [if_neg (by simp [h1, h2, h3])]
  simp only [toQnum, ndiv, nmul]
  split
  · rename_i hpos
    constructor
    · intro h
      cases h
      exact ⟨hpos, rfl⟩
    · intro h
      rw [h.2]
  · rename_i hpos
    constructor
    · intro h; cases h
    · intro h
      exact absurd h.1 hpos

theorem cellBody_age_zero (year : Int) (st cd rg sex : String) (TA TR TE : Option Int)
    (a : String) (q t : String × Option Int) :
    cellBody year st cd rg sex TA TR TE (a, some 0) q t = none := by
  unfold cellBody
  split
  · rfl
  · cases TA with
    | none => simp [toQnum, nmul_none_left]
    | some ta =>
      cases hq : ndiv q.2 TR with
      | none => simp [nmul_none_right, nmul_none_left]
      | some z =>
        cases ht : ndiv t.2 TE with
        | none => simp [hq, nmul_none_right]
        | some w =>
          simp [hq, ht, toQnum, ndiv, nmul, jsRound_zero]

theorem cellBody_race_zero (year : Int) (st cd rg sex : String) (TA TR TE : Option Int)
    (p : String × Option Int) (r : String) (t : String × Option Int) :
    cellBody year st cd rg sex TA TR TE p (r, some 0) t = none := by
  unfold cellBody
  split
  · rfl
  · cases hx : nmul (toQnum TA) (ndiv p.2 TA) with
    | none => simp [hx, nmul_none_left]
    | some x =>
      cases TR with
      | none => simp [hx, ndiv, nmul_none_right, nmul_none_left]
      | some tr =>
        cases ht : ndiv t.2 TE with
        | none => simp [hx, ht, nmul_none_right]
        | some w => simp [hx, ht, ndiv, nmul, jsRound_zero]

theorem cellBody_edu_zero (year : Int) (st cd rg sex : String) (TA TR TE : Option Int)
    (p q : String × Option Int) (e : String) :
    cellBody year st cd rg sex TA TR TE p q (e, some 0) = none := by
  unfold cellBody
  split
  · rfl
  · cases hx : nmul (nmul (toQnum TA) (ndiv p.2 TA)) (ndiv q.2 TR) with
    | none => simp [hx, nmul_none_left]
    | some x =>
      cases TE with
      | none => simp [hx, ndiv, nmul_none_right]
      | some te => simp [hx, ndiv, nmul, jsRound_zero]

theorem sexSlice_zero_marginal (year : Int) (st cd rg sex : String) (row : Row)
    (h : nsum ((recodeAge row sex).map Prod.snd) = some 0
       ∨ nsum ((recodeRace row).map Prod.snd) = some 0
       ∨ nsum ((recodeEducation row).map Prod.snd) = some 0) :
    sexSliceCells year st cd rg row sex = [] := by
  unfold sexSliceCells crossCells
  have hb : ∀ p q t, cellBody year st cd rg sex
      (nsum ((recodeAge row sex).map Prod.snd))
      (nsum ((recodeRace row).map Prod.snd))
      (nsum ((recodeEducation row).map Prod.snd)) p q t = none := by
    intro p q t
    unfold cellBody
    exact if_pos h
  simp only [hb]
  simp

/-! ### Builder loop helper lemmas -/

theorem batchLoop_eq_length : ∀ (n : Nat) (l : List Cell), l.length ≤ n → batchLoop l = l.length
  | _, [], _ => by rw [batchLoop]; rfl
  | 0, c :: rest, h => by simp at h
  | n + 1, c :: rest, h => by
    rw [batchLoop]
    rw [batchLoop_eq_length n ((c :: rest).drop batchSize)
      (by simp only [List.length_drop, List.length_cons, batchSize] at h ⊢; omega)]
    simp only [List.length_take, List.length_drop, List.length_cons, batchSize]
    omega

theorem buildLoop_go (year : Int) : ∀ (rows : List Row) (acc : List Cell × Nat),
    rows.foldl (buildStep year) acc =
      (acc.1 ++ (rows.filterMap (okCells year)).flatten,
       acc.2 + rows.countP fun r => (okCells year r).isNone)
  | [], acc => by simp
  | row :: rest, acc => by
    rw [List.foldl_cons, buildLoop_go year rest (buildStep year acc row)]
    unfold buildStep okCells
    cases h : rowCells year row with
    | ok cs => simp [List.countP_cons, List.filterMap_cons, h]
    | error e => simp [List.countP_cons, List.filterMap_cons, h]; omega

theorem okCells_eq_some {year : Int} {row : Row} {cs : List Cell} :
    okCells year row = some cs ↔ rowCells year row = Except.ok cs := by
  unfold okCells
  split <;> simp_all

theorem okCells_isNone_iff (year : Int) (row : Row) :
    (okCells year row).isNone = true ↔
      ((∃ e, parseDistrict row = Except.error e) ∨
       ∃ d e, parseDistrict row = Except.ok d ∧ getRegion d.state = Except.error e) := by
  unfold okCells rowCells
  cases hd : parseDistrict row with
  | error e => simp [hd]
  | ok d =>
    cases hr : getRegion d.state with
    | error e => simp [hd, hr]
    | ok rg => simp [hd, hr]

/-! ### Region and district lookup helper lemmas -/

theorem findRegion_error_iff (code : String) : ∀ (l : List (String × List String)),
    (findRegion code l = Except.error ("Unknown state code: " ++ code) ↔ ∀ p ∈ l, code ∉ p.2)
  | [] => by simp [findRegion]
  | (r, sts) :: rest => by
    unfold findRegion
    split
    · rename_i hmem
      constructor
      · intro h; cases h
      · intro h; exact absurd hmem (h (r, sts) (List.mem_cons_self _ _))
    · rename_i hmem
      rw [findRegion_error_iff code rest]
      constructor
      · intro h p hp
        rcases List.mem_cons.mp hp with h1 | h1
        · rw [h1]; exact hmem
        · exact h p h1
      · intro h p hp
        exact h p (List.mem_cons_of_mem _ hp)

theorem findRegion_ok_mem (code : String) : ∀ (l : List (String × List String)) (r : String),
    findRegion code l = Except.ok r → ∃ sts, (r, sts) ∈ l ∧ code ∈ sts
  | [], r => by simp [findRegion]
  | (r0, sts0) :: rest, r => by
    unfold findRegion
    split
    · rename_i hmem
      intro h
      cases h
      exact ⟨sts0, List.mem_cons_self _ _, hmem⟩
    · intro h
      rcases findRegion_ok_mem code rest r h with ⟨sts, hmem2, hcode⟩
      exact ⟨sts, List.mem_cons_of_mem _ hmem2, hcode⟩

theorem countP_le_one_of_disjoint (code : String) :
    ∀ (l : List (String × List String)),
      l.Pairwise (fun p q => ∀ s ∈ p.2, s ∉ q.2) →
      l.countP (fun p => decide (code ∈ p.2)) ≤ 1
  | [], _ => by simp
  | p :: rest, hp => by
    rw [List.countP_cons]
    rcases List.pairwise_cons.mp hp with ⟨hhead, htail⟩
    by_cases hc : code ∈ p.2
    · have h0 : rest.countP (fun q => decide (code ∈ q.2)) = 0 := by
        rw [List.countP_eq_zero]
        intro q hq
        simp only [decide_eq_true_eq]
        exact hhead q hq code hc
      simp [h0, hc]
    · have hf : (decide (code ∈ p.2)) = false := decide_eq_false hc
      rw [hf]
      simpa using countP_le_one_of_disjoint code rest htail

theorem region_disjoint :
    RECODE_SPECS.censusRegionMapping.Pairwise (fun p q => ∀ s ∈ p.2, s ∉ q.2) := by decide

theorem lookup_mem {α β : Type} [DecidableEq α] :
    ∀ (l : List (α × β)) (k : α) (v : β), l.lookup k = some v → (k, v) ∈ l
  | [], k, v => by simp [List.lookup]
  | (a, b) :: rest, k, v => by
    simp only [List.lookup]
    split
    · rename_i heq
      intro h
      cases h
      have hk : k = a := by simpa using heq
      rw [hk]
      exact List.mem_cons_self _ _
    · intro h
      exact List.mem_cons_of_mem _ (lookup_mem rest k v h)

theorem str_append_left_cancel {s a b : String} (h : s ++ a = s ++ b) : a = b := by
  have hd : (s ++ a).data = (s ++ b).data := by rw [h]
  rw [String.data_append, String.data_append] at hd
  have h2 := List.append_cancel_left hd
  cases a; cases b; exact congrArg String.mk h2

theorem cdFormatted_eq (v : JsVal) :
    (if v = JsVal.str "00" then "00" else jsToString v) = jsToString v := by
  split
  · rename_i h; rw [h]; rfl
  · rfl

theorem jsToString_inj_str {v1 v2 : JsVal} (h1 : isStrVal v1 = true) (h2 : isStrVal v2 = true)
    (h : jsToString v1 = jsToString v2) : v1 = v2 := by
  cases v1 <;> cases v2 <;> simp_all [isStrVal, jsToString]

theorem fips_val_inj : ∀ p ∈ FIPS_TO_STATE, ∀ q ∈ FIPS_TO_STATE, p.2 = q.2 → p.1 = q.1 := by
  decide

theorem parseDistrict_ok_char {row : Row} {d : District} (h : parseDistrict row = Except.ok d) :
    FIPS_TO_STATE.lookup (jsToString (row "state")) = some d.state
    ∧ d.cd = d.state ++ "-" ++ jsToString (row "congressional district") := by
  cases hlook : FIPS_TO_STATE.lookup (jsToString (row "state")) with
  | none =>
    simp only [parseDistrict, fipsToState, hlook] at h
    cases h
  | some st =>
    simp only [parseDistrict, fipsToState, hlook, cdFormatted_eq] at h
    cases h
    exact ⟨rfl, rfl⟩

/-! ### Key-uniqueness machinery -/

theorem filterMap_map_sublist {α β γ : Type} (f : α → Option β) (h : β → γ) (g : α → γ)
    (hfg : ∀ x c, f x = some c → h c = g x) :
    ∀ l : List α, ((l.filterMap f).map h).Sublist (l.map g)
  | [] => by simp
  | x :: rest => by
    rw [List.filterMap_cons]
    cases hx : f x with
    | none =>
      rw [List.map_cons]
      exact List.Sublist.cons _ (filterMap_map_sublist f h g hfg rest)
    | some c =>
      rw [List.map_cons, List.map_cons, hfg x c hx]
      exact List.Sublist.cons₂ _ (filterMap_map_sublist f h g hfg rest)

theorem flatMap_sublist {α β : Type} (f g : α → List β)
    (hfg : ∀ a, (f a).Sublist (g a)) :
    ∀ l : List α, (l.flatMap f).Sublist (l.flatMap g)
  | [] => by simp
  | x :: rest => by
    rw [List.flatMap_cons, List.flatMap_cons]
    exact List.Sublist.append (hfg x) (flatMap_sublist f g hfg rest)

theorem crossCells_trip_sublist (year : Int) (st cd rg sex : String)
    (AC RC EC : List (String × Option Int)) :
    ((crossCells year st cd rg sex AC RC EC).map
        (fun c => (c.ageGroup, c.raceEth, c.education))).Sublist
      (AC.flatMap fun p => RC.flatMap fun q => EC.map fun t => (p.1, q.1, t.1)) := by
  unfold crossCells
  rw [List.map_flatMap]
  apply flatMap_sublist
  intro p
  rw [List.map_flatMap]
  apply flatMap_sublist
  intro q
  apply filterMap_map_sublist
  intro t c hc
  have h := cellBody_some_fields hc
  rw [h.2.2.2.1, h.2.2.2.2.2.1, h.2.2.2.2.2.2.1]

theorem nodup_innerTrip (a : String) (RC EC : List (String × Option Int))
    (hB : (RC.map Prod.fst).Nodup) (hC : (EC.map Prod.fst).Nodup) :
    (RC.flatMap fun q => EC.map fun t => (a, q.1, t.1)).Nodup := by
  induction RC with
  | nil => simp
  | cons q rest ih =>
    rw [List.map_cons, List.nodup_cons] at hB
    rw [List.flatMap_cons, List.nodup_append]
    refine ⟨?_, ih hB.2, ?_⟩
    · have hmm : EC.map (fun t => (a, q.1, t.1))
          = (EC.map Prod.fst).map (fun s => (a, q.1, s)) := by
        rw [List.map_map]
        rfl
      rw [hmm]
      exact hC.map (fun s1 s2 h => by simpa using h)
    · intro x hx hx2
      rcases List.mem_map.mp hx with ⟨t, ht, rfl⟩
      rcases List.mem_flatMap.mp hx2 with ⟨q2, hq2, hx3⟩
      rcases List.mem_map.mp hx3 with ⟨t2, ht2, heq⟩
      have h3 : q2.1 = q.1 := by
        have := congrArg (fun z => z.2.1) heq
        simpa using this
      exact hB.1 (h3 ▸ List.mem_map.mpr ⟨q2, hq2, rfl⟩)

theorem nodup_tripList (AC RC EC : List (String × Option Int))
    (hA : (AC.map Prod.fst).Nodup) (hB : (RC.map Prod.fst).Nodup)
    (hC : (EC.map Prod.fst).Nodup) :
    (AC.flatMap fun p => RC.flatMap fun q => EC.map fun t => (p.1, q.1, t.1)).Nodup := by
  induction AC with
  | nil => simp
  | cons p rest ih =>
    rw [List.map_cons, List.nodup_cons] at hA
    rw [List.flatMap_cons, List.nodup_append]
    refine ⟨nodup_innerTrip p.1 RC EC hB hC, ih hA.2, ?_⟩
    intro x hx hx2
    rcases List.mem_flatMap.mp hx with ⟨q, hq, hx3⟩
    rcases List.mem_map.mp hx3 with ⟨t, ht, rfl⟩
    rcases List.mem_flatMap.mp hx2 with ⟨p2, hp2, hx4⟩
    rcases List.mem_flatMap.mp hx4 with ⟨q2, hq2, hx5⟩
    rcases List.mem_map.mp hx5 with ⟨t2, ht2, heq⟩
    have h1 : p2.1 = p.1 := by
      have := congrArg (fun z => z.1) heq
      simpa using this
    exact hA.1 (h1 ▸ List.mem_map.mpr ⟨p2, hp2, rfl⟩)

theorem crossCells_keys_nodup (year : Int) (st cd rg sex : String)
    (AC RC EC : List (String × Option Int))
    (hA : (AC.map Prod.fst).Nodup) (hB : (RC.map Prod.fst).Nodup)
    (hC : (EC.map Prod.fst).Nodup) :
    ((crossCells year st cd rg sex AC RC EC).map cellKey).Nodup := by
  have htrip := nodup_tripList AC RC EC hA hB hC
  have h1 := htrip.sublist (crossCells_trip_sublist year st cd rg sex AC RC EC)
  have h2 : (crossCells year st cd rg sex AC RC EC).map
      (fun c => (c.ageGroup, c.raceEth, c.education))
      = ((crossCells year st cd rg sex AC RC EC).map cellKey).map
        (fun k => (k.2.2.2.1, k.2.2.2.2.2.1, k.2.2.2.2.2.2.1)) := by
    rw [List.map_map]
    rfl
  rw [h2] at h1
  exact h1.of_map _

theorem crossCells_fields {year : Int} {st cd rg sex : String}
    {AC RC EC : List (String × Option Int)} {c : Cell}
    (hc : c ∈ crossCells year st cd rg sex AC RC EC) :
    c.year = year ∧ c.state = st ∧ c.cd = cd ∧ c.sex = sex ∧ c.censusRegion = rg := by
  rcases mem_crossCells.mp hc with ⟨p, _, q, _, t, _, hbody⟩
  have h := cellBody_some_fields hbody
  exact ⟨h.1, h.2.1, h.2.2.1, h.2.2.2.2.1, h.2.2.2.2.2.2.2⟩

theorem rowCells_ok_char {year : Int} {row : Row} {cs : List Cell}
    (h : rowCells year row = Except.ok cs) :
    (cs.map cellKey).Nodup
    ∧ ∃ d, parseDistrict row = Except.ok d ∧
        ∀ c ∈ cs, c.year = year ∧ c.state = d.state ∧ c.cd = d.cd := by
  unfold rowCells at h
  split at h
  · cases h
  · rename_i d hd
    split at h
    · cases h
    · rename_i rg hrg
      cases h
      have hexp : List.flatMap ["Female", "Male"]
          (fun sex => sexSliceCells year d.state d.cd rg row sex)
          = sexSliceCells year d.state d.cd rg row "Female"
            ++ sexSliceCells year d.state d.cd rg row "Male" := by
        simp [List.flatMap_cons]
      rw [hexp]
      constructor
      · rw [List.map_append, List.nodup_append]
        refine ⟨?_, ?_, ?_⟩
        · exact crossCells_keys_nodup year d.state d.cd rg "Female" _ _ _
            (by rw [recodeAge_labels]; decide) (by rw [recodeRace_labels]; decide)
            (by rw [recodeEducation_labels]; decide)
        · exact crossCells_keys_nodup year d.state d.cd rg "Male" _ _ _
            (by rw [recodeAge_labels]; decide) (by rw [recodeRace_labels]; decide)
            (by rw [recodeEducation_labels]; decide)
        · intro x hx1 hx2
          rcases List.mem_map.mp hx1 with ⟨c1, hc1, rfl⟩
          rcases List.mem_map.mp hx2 with ⟨c2, hc2, hkeq⟩
          have hs1 : c1.sex = "Female" := (crossCells_fields hc1).2.2.2.1
          have hs2 : c2.sex = "Male" := (crossCells_fields hc2).2.2.2.1
          have heq2 : c2.sex = c1.sex := congrArg (fun k => k.2.2.2.2.1) hkeq
          rw [hs1, hs2] at heq2
          exact absurd heq2 (by decide)
      · refine ⟨d, hd, ?_⟩
        intro c hc
        rcases List.mem_append.mp hc with h1 | h1
        · exact ⟨(crossCells_fields h1).1, (crossCells_fields h1).2.1,
            (crossCells_fields h1).2.2.1⟩
        · exact ⟨(crossCells_fields h1).1, (crossCells_fields h1).2.1,
            (crossCells_fields h1).2.2.1⟩

theorem parsed_ne {row1 row2 : Row} {d1 d2 : District}
    (h1 : parseDistrict row1 = Except.ok d1) (h2 : parseDistrict row2 = Except.ok d2)
    (hs1 : isStrVal (row1 "state") = true) (hc1 : isStrVal (row1 "congressional district") = true)
    (hs2 : isStrVal (row2 "state") = true) (hc2 : isStrVal (row2 "congressional district") = true)
    (hne : rawGeoKey row1 ≠ rawGeoKey row2) :
    d1.state ≠ d2.state ∨ d1.cd ≠ d2.cd := by
  rcases parseDistrict_ok_char h1 with ⟨hl1, hcd1⟩
  rcases parseDistrict_ok_char h2 with ⟨hl2, hcd2⟩
  by_cases hstate : row1 "state" = row2 "state"
  · right
    have hcddiff : row1 "congressional district" ≠ row2 "congressional district" := by
      intro hcdeq
      exact hne (by unfold rawGeoKey; rw [hstate, hcdeq])
    have hsame : d1.state = d2.state := by
      rw [hstate] at hl1
      rw [hl1] at hl2
      exact Option.some_injective _ hl2
    intro hcdeq
    rw [hcd1, hcd2, hsame] at hcdeq
    have hcs := str_append_left_cancel hcdeq
    exact hcddiff (jsToString_inj_str hc1 hc2 hcs)
  · left
    intro hsteq
    have m1 := lookup_mem _ _ _ hl1
    have m2 := lookup_mem _ _ _ hl2
    have hkeys := fips_val_inj _ m1 _ m2 (by rw [hsteq])
    simp only at hkeys
    exact hstate (jsToString_inj_str hs1 hs2 hkeys)

theorem flatten_keys_nodup (year : Int) : ∀ (rows : List Row),
    (∀ row ∈ rows, isStrVal (row "state") = true
      ∧ isStrVal (row "congressional district") = true) →
    ((rows.map rawGeoKey).Pairwise (fun a b => a ≠ b)) →
    (((rows.filterMap (okCells year)).flatten).map cellKey).Nodup
  | [], _, _ => by simp
  | row :: rest, hstr, hkey => by
    have hkeyc := List.pairwise_cons.mp
      (show ((rawGeoKey row) :: rest.map rawGeoKey).Pairwise (fun a b => a ≠ b) by
        simpa using hkey)
    have ihrest := flatten_keys_nodup year rest
      (fun r hr => hstr r (List.mem_cons_of_mem _ hr)) hkeyc.2
    rw [List.filterMap_cons]
    cases hok : okCells year row with
    | none => exact ihrest
    | some cs =>
      rw [List.flatten_cons, List.map_append, List.nodup_append]
      rcases rowCells_ok_char (okCells_eq_some.mp hok) with ⟨hnodup1, d1, hd1, hfields1⟩
      refine ⟨hnodup1, ihrest, ?_⟩
      intro x hx1 hx2
      rcases List.mem_map.mp hx1 with ⟨c1, hc1, rfl⟩
      rcases List.mem_map.mp hx2 with ⟨c2, hc2, hkeq⟩
      rcases List.mem_flatten.mp hc2 with ⟨cs2, hcs2, hc2in⟩
      rcases List.mem_filterMap.mp hcs2 with ⟨r2, hr2, hok2⟩
      rcases rowCells_ok_char (okCells_eq_some.mp hok2) with ⟨_, d2, hd2, hfields2⟩
      have hf1 := hfields1 c1 hc1
      have hf2 := hfields2 c2 hc2in
      have hraw : rawGeoKey row ≠ rawGeoKey r2 :=
        hkeyc.1 (rawGeoKey r2) (List.mem_map.mpr ⟨r2, hr2, rfl⟩)
      have hne2 := parsed_ne hd1 hd2 (hstr row (List.mem_cons_self _ _)).1
        (hstr row (List.mem_cons_self _ _)).2
        (hstr r2 (List.mem_cons_of_mem _ hr2)).1
        (hstr r2 (List.mem_cons_of_mem _ hr2)).2 hraw
      have hst : c2.state = c1.state := congrArg (fun k => k.2.1) hkeq
      have hcd : c2.cd = c1.cd := congrArg (fun k => k.2.2.1) hkeq
      rcases hne2 with hh | hh
      · exact hh (by rw [← hf1.2.1, ← hf2.2.1, hst])
      · exact hh (by rw [← hf1.2.2, ← hf2.2.2, hcd])

/-! ### Concrete evaluation of the end-to-end example record -/

theorem sexSlice_row0_female :
    sexSliceCells 2023 "TX" "TX-32" "South" row0 "Female" = [] :=
  sexSlice_zero_marginal 2023 "TX" "TX-32" "South" "Female" row0 (Or.inl (by decide))

theorem sexSlice_row0_male :
    sexSliceCells 2023 "TX" "TX-32" "South" row0 "Male" = [c0row] := by
  have hAC : recodeAge row0 "Male" =
      [("18-24", some 1000), ("25-34", some 0), ("35-44", some 0), ("45-54", some 0),
       ("55-64", some 0), ("65+", some 0)] := by decide
  have hRC : recodeRace row0 =
      [("White", some 2000), ("Black", some 0), ("Hispanic", some 0), ("Asian", some 0),
       ("Other", some 0)] := by decide
  have hEC : recodeEducation row0 =
      [("Less Than HS", some 0), ("High School", some 0), ("Some College", some 0),
       ("BA/BS", some 1500), ("Post-Grad", some 0)] := by decide
  have hone : cellBody 2023 "TX" "TX-32" "South" "Male" (some 1000) (some 2000) (some 1500)
      ("18-24", some 1000) ("White", some 2000) ("BA/BS", some 1500) = some c0row := by
    rw [cellBody_some_char (by norm_num) (by norm_num) (by norm_num)]
    have hq : (((1000 : Int) : ℚ) * (((1000 : Int) : ℚ) / ((1000 : Int) : ℚ))
          * (((2000 : Int) : ℚ) / ((2000 : Int) : ℚ)) * (((1500 : Int) : ℚ) / ((1500 : Int) : ℚ)))
        = ((1000 : Int) : ℚ) := by push_cast; norm_num
    constructor
    · rw [hq, jsRound_intCast]; norm_num
    · unfold c0row
      congr 1
      rw [hq, jsRound_intCast]
  unfold sexSliceCells crossCells
  rw [hAC, hRC, hEC]
  simp only [List.map_cons, List.map_nil, nsum, nadd, List.foldl]
  norm_num
  simp [cellBody_age_zero, cellBody_race_zero, cellBody_edu_zero, hone]

theorem rowCells_row0 : rowCells 2023 row0 = Except.ok [c0row] := by
  have h1 : parseDistrict row0 = Except.ok ⟨"TX", "TX-32", "32"⟩ := rfl
  have h2 : getRegion "TX" = Except.ok "South" := rfl
  simp [rowCells, h1, h2, sexSlice_row0_female, sexSlice_row0_male]

theorem buildLoop_row0 : buildLoop 2023 [row0] = ([c0row], 0) := by
  unfold buildLoop
  rw [List.foldl_cons, List.foldl_nil]
  unfold buildStep
  rw [rowCells_row0]
  simp

/-! ### Claim theorems -/

/-- C1: for a geography/sex slice whose three marginal totals are present and
nonzero, the builder emits a cell for a combination (ageGroup `a`, raceEth
`r`, education `e`) if and only if
`round(totalAge * (ageCount/totalAge) * (raceCount/totalRace) * (eduCount/totalEdu))`
is strictly positive, and the emitted cell's population is exactly that
rounded value, with `round` the round-half-away-from-zero rule of the spec
(`Math.round`, floor of x + 1/2, agrees with it on every value that can be
emitted). -/
theorem c1_cell_emission_iff_rounded_positive
    (year : Int) (st cd rg sex : String) (row : Row) (ta tr te ac rc ec : Int)
    (hta : nsum ((recodeAge row sex).map Prod.snd) = some ta) (h1 : ta ≠ 0)
    (htr : nsum ((recodeRace row).map Prod.snd) = some tr) (h2 : tr ≠ 0)
    (hte : nsum ((recodeEducation row).map Prod.snd) = some te) (h3 : te ≠ 0)
    (a r e : String)
    (ha : (a, some ac) ∈ recodeAge row sex) (hr : (r, some rc) ∈ recodeRace row)
    (he : (e, some ec) ∈ recodeEducation row) :
    ((∃ c ∈ sexSliceCells year st cd rg row sex,
        c.ageGroup = a ∧ c.raceEth = r ∧ c.education = e)
      ↔ 0 < roundHalfAway ((ta : ℚ) * ((ac : ℚ) / ta) * ((rc : ℚ) / tr) * ((ec : ℚ) / te)))
    ∧ ∀ c ∈ sexSliceCells year st cd rg row sex,
        c.ageGroup = a → c.raceEth = r → c.education = e →
        c.population
          = roundHalfAway ((ta : ℚ) * ((ac : ℚ) / ta) * ((rc : ℚ) / tr) * ((ec : ℚ) / te)) := by
  have hQ := roundHalfAway_pos_iff ((ta : ℚ) * ((ac : ℚ) / ta) * ((rc : ℚ) / tr) * ((ec : ℚ) / te))
  have hJ := jsRound_pos_iff ((ta : ℚ) * ((ac : ℚ) / ta) * ((rc : ℚ) / tr) * ((ec : ℚ) / te))
  have key : ∀ c ∈ sexSliceCells year st cd rg row sex,
      c.ageGroup = a → c.raceEth = r → c.education = e →
      (0 < jsRound ((ta : ℚ) * ((ac : ℚ) / ta) * ((rc : ℚ) / tr) * ((ec : ℚ) / te))
        ∧ c.population
          = jsRound ((ta : ℚ) * ((ac : ℚ) / ta) * ((rc : ℚ) / tr) * ((ec : ℚ) / te))) := by
    intro c hc hage hrace hedu
    rcases mem_crossCells.mp hc with ⟨p, hp, q, hq, t, ht, hbody⟩
    rw [hta, htr, hte] at hbody
    have hfields := cellBody_some_fields hbody
    have hpa : p.1 = a := by rw [← hfields.2.2.2.1, hage]
    have hqr : q.1 = r := by rw [← hfields.2.2.2.2.2.1, hrace]
    have hte' : t.1 = e := by rw [← hfields.2.2.2.2.2.2.1, hedu]
    have hp2 : p.2 = some ac := by
      apply snd_unique (by rw [recodeAge_labels]; decide) _ ha
      rw [← hpa]
      exact hp
    have hq2 : q.2 = some rc := by
      apply snd_unique (by rw [recodeRace_labels]; decide) _ hr
      rw [← hqr]
      exact hq
    have ht2 : t.2 = some ec := by
      apply snd_unique (by rw [recodeEducation_labels]; decide) _ he
      rw [← hte']
      exact ht
    have hpqt : p = (a, some ac) := Prod.ext hpa hp2
    have hqqt : q = (r, some rc) := Prod.ext hqr hq2
    have httt : t = (e, some ec) := Prod.ext hte' ht2
    rw [hpqt, hqqt, httt] at hbody
    have hchar := (cellBody_some_char h1 h2 h3).mp hbody
    exact ⟨hchar.1, by rw [hchar.2]⟩
  constructor
  · constructor
    · rintro ⟨c, hc, hage, hrace, hedu⟩
      exact hQ.mpr (hJ.mp (key c hc hage hrace hedu).1)
    · intro hpos
      have hjs : 0 < jsRound ((ta : ℚ) * ((ac : ℚ) / ta) * ((rc : ℚ) / tr) * ((ec : ℚ) / te)) :=
        hJ.mpr (hQ.mp hpos)
      refine ⟨{ year := year, state := st, cd := cd, ageGroup := a, sex := sex, raceEth := r,
                education := e, censusRegion := rg,
                population :=
                  jsRound ((ta : ℚ) * ((ac : ℚ) / ta) * ((rc : ℚ) / tr) * ((ec : ℚ) / te)) },
        mem_crossCells.mpr ⟨(a, some ac), ha, (r, some rc), hr, (e, some ec), he, ?_⟩,
        rfl, rfl, rfl⟩
      rw [hta, htr, hte]
      exact (cellBody_some_char h1 h2 h3).mpr ⟨hjs, rfl⟩
  · intro c hc hage hrace hedu
    have hk := key c hc hage hrace hedu
    rw [hk.2, roundHalfAway_eq_jsRound]
    have := hJ.mp hk.1
    linarith

/-- C1 witness: on the end-to-end example record, the theorem instantiated at
the one surviving combination yields its cell. -/
theorem c1_cell_emission_iff_rounded_positive_witness :
    ∃ c ∈ sexSliceCells 2023 "TX" "TX-32" "South" row0 "Male",
      c.ageGroup = "18-24" ∧ c.raceEth = "White" ∧ c.education = "BA/BS" := by
  refine ((c1_cell_emission_iff_rounded_positive 2023 "TX" "TX-32" "South" "Male" row0
    1000 2000 1500 1000 2000 1500
    (by decide) (by decide) (by decide) (by decide) (by decide) (by decide)
    "18-24" "White" "BA/BS" (by decide) (by decide) (by decide)).1).mpr ?_
  rw [roundHalfAway_pos_iff]
  push_cast
  norm_num

/-- C2: when any of the three marginal totals of a geography/sex slice is
zero, the builder emits no cells for that slice; the recoding and
cross-tabulation are total functions, so the condition cannot raise or abort
the record. -/
theorem c2_zero_marginal_emits_no_cells (year : Int) (st cd rg sex : String) (row : Row)
    (h : nsum ((recodeAge row sex).map Prod.snd) = some 0
       ∨ nsum ((recodeRace row).map Prod.snd) = some 0
       ∨ nsum ((recodeEducation row).map Prod.snd) = some 0) :
    sexSliceCells year st cd rg row sex = [] :=
  sexSlice_zero_marginal year st cd rg sex row h

/-- C2 witness: the all-absent record has zero marginal totals and an empty
slice. -/
theorem c2_zero_marginal_emits_no_cells_witness :
    sexSliceCells 2023 "TX" "TX-32" "South" emptyRow "Male" = [] :=
  c2_zero_marginal_emits_no_cells 2023 "TX" "TX-32" "South" "Male" emptyRow
    (Or.inl (by decide))

/-- C3 counterexample: the claim says a non-numeric count field contributes
zero to the returned category count, but a record whose White-alone field
holds the string "abc" gets a NaN (`none`) White count from `recodeRace`, not
zero: `parseInt("abc" || 0, 10)` is `NaN`, because `|| 0` only replaces falsy
values and `"abc"` is truthy. -/
theorem c3_nonnumeric_field_counterexample :
    (recodeRace rowAbc).lookup "White" = some none
    ∧ ¬ (recodeRace rowAbc).lookup "White" = some (some (0 : Int)) := by
  constructor <;> decide

/-- C3 amended: a missing (`undefined`), `null` or empty-string count field
contributes zero, and recoding a raw count field never raises (the recode
functions are total); but a non-empty, non-numeric string field does not
contribute zero: it makes the affected category count NaN (`none`).  On a
record with every field absent, every category count is zero. -/
theorem c3_missing_zero_nonnumeric_nan (row : Row) (k s : String) :
    (row k = JsVal.undef → getValue row k = some 0)
    ∧ (row k = JsVal.nullv → getValue row k = some 0)
    ∧ (row k = JsVal.str s → s ≠ "" → parseIntStr s = none → getValue row k = none)
    ∧ (∀ p ∈ recodeRace emptyRow, p.2 = some 0) := by
  refine ⟨?_, ?_, ?_, by decide⟩
  · intro h; simp [getValue, h]
  · intro h; simp [getValue, h]
  · intro h hs hp; simp [getValue, h, hs, hp]

/-- C3 witness: on the "abc" record the non-numeric field parses to NaN while
an absent field parses to zero. -/
theorem c3_missing_zero_nonnumeric_nan_witness :
    getValue rowAbc "B03002_003E" = none ∧ getValue rowAbc "B01001_007E" = some 0 :=
  ⟨(c3_missing_zero_nonnumeric_nan rowAbc "B03002_003E" "abc").2.2.1
      (by decide) (by decide) (by decide),
   (c3_missing_zero_nonnumeric_nan rowAbc "B01001_007E" "").1 (by decide)⟩

/-- C4 counterexample: the FIPS table produces the abbreviation "PR" (from
code "72"), but "PR" is in no region's state set, so `getRegion` raises the
unknown-state error for it — contradicting the claim that every abbreviation
the FIPS table can produce resolves to a region. -/
theorem c4_pr_produced_but_unmapped_counterexample :
    FIPS_TO_STATE.lookup "72" = some "PR"
    ∧ getRegion "PR" = Except.error "Unknown state code: PR" := ⟨rfl, rfl⟩

/-- C4 amended: every abbreviation the FIPS table can produce except "PR"
(the 50 states and DC) resolves; a successful lookup returns the unique
region containing the code (the region sets are pairwise disjoint); and
`getRegion` raises the unknown-state error exactly when the code is in no
region's state set — which includes the territory PR even though the FIPS
table can produce it. -/
theorem c4_region_lookup_amended (code : String) :
    (∀ st ∈ FIPS_TO_STATE.map Prod.snd, st ≠ "PR" → exOk (getRegion st) = true)
    ∧ (∀ r, getRegion code = Except.ok r →
        (RECODE_SPECS.censusRegionMapping.countP (fun p => decide (code ∈ p.2)) = 1
         ∧ ∃ sts, (r, sts) ∈ RECODE_SPECS.censusRegionMapping ∧ code ∈ sts))
    ∧ (getRegion code = Except.error ("Unknown state code: " ++ code)
        ↔ ∀ p ∈ RECODE_SPECS.censusRegionMapping, code ∉ p.2) := by
  refine ⟨by decide, ?_, findRegion_error_iff code RECODE_SPECS.censusRegionMapping⟩
  intro r hok
  rcases findRegion_ok_mem code _ r hok with ⟨sts, hmem, hcode⟩
  refine ⟨?_, sts, hmem, hcode⟩
  have hle := countP_le_one_of_disjoint code _ region_disjoint
  have hpos : 0 < RECODE_SPECS.censusRegionMapping.countP (fun p => decide (code ∈ p.2)) :=
    List.countP_pos_iff.mpr ⟨(r, sts), hmem, by simpa using hcode⟩
  omega

/-- C4 witness: Texas resolves and lies in exactly one region; an
unrecognized code raises. -/
theorem c4_region_lookup_amended_witness :
    exOk (getRegion "TX") = true
    ∧ RECODE_SPECS.censusRegionMapping.countP (fun p => decide ("TX" ∈ p.2)) = 1
    ∧ getRegion "ZZ" = Except.error ("Unknown state code: " ++ "ZZ") :=
  ⟨(c4_region_lookup_amended "TX").1 "TX" (by decide) (by decide),
   ((c4_region_lookup_amended "TX").2.1 "South" rfl).1,
   (c4_region_lookup_amended "ZZ").2.2.mpr (by decide)⟩

/-- C5: each record on which `parseDistrict` or `getRegion` raises is counted
as skipped (and only those), every other record contributes its cells
normally, the build always returns a result, and the reported
`districtsProcessed` equals the input length minus `districtsSkipped`. -/
theorem c5_skip_accounting (year : Int) (rows : List Row) :
    (buildLoop year rows).2 = rows.countP (fun r => (okCells year r).isNone)
    ∧ (buildLoop year rows).1 = (rows.filterMap (okCells year)).flatten
    ∧ (∀ row, (okCells year row).isNone = true ↔
        ((∃ e, parseDistrict row = Except.error e) ∨
         ∃ d e, parseDistrict row = Except.ok d ∧ getRegion d.state = Except.error e))
    ∧ (buildPoststratTable year rows).districtsProcessed
        = (rows.length : Int) - ((buildPoststratTable year rows).districtsSkipped : Int) := by
  have hb := buildLoop_go year rows ([], 0)
  refine ⟨?_, ?_, okCells_isNone_iff year, ?_⟩
  · unfold buildLoop
    rw [hb]
    simp
  · unfold buildLoop
    rw [hb]
    simp
  · simp [buildPoststratTable]

/-- C5 witness: on the singleton example input, processed = length minus
skipped. -/
theorem c5_skip_accounting_witness :
    (buildPoststratTable 2023 [row0]).districtsProcessed
      = (([row0] : List Row).length : Int)
        - ((buildPoststratTable 2023 [row0]).districtsSkipped : Int) :=
  (c5_skip_accounting 2023 [row0]).2.2.2

/-- C6: for an input with string geography fields and at most one record per
raw (state, congressional district) pair, the identity keys
(year, state, cd, ageGroup, sex, raceEth, education, censusRegion) of the
cells of one build are pairwise distinct. -/
theorem c6_cell_keys_unique (year : Int) (rows : List Row)
    (hstr : ∀ row ∈ rows, isStrVal (row "state") = true
      ∧ isStrVal (row "congressional district") = true)
    (hkey : (rows.map rawGeoKey).Pairwise (fun a b => a ≠ b)) :
    ((buildLoop year rows).1.map cellKey).Nodup := by
  have hb := buildLoop_go year rows ([], 0)
  unfold buildLoop
  rw [hb]
  simp only [List.nil_append]
  exact flatten_keys_nodup year rows hstr hkey

/-- C6 witness: the singleton example input has distinct keys. -/
theorem c6_cell_keys_unique_witness : ((buildLoop 2023 [row0]).1.map cellKey).Nodup := by
  apply c6_cell_keys_unique 2023 [row0]
  · intro row hr
    rw [List.mem_singleton.mp hr]
    exact ⟨by decide, by decide⟩
  · simp

/-- C7: for every record, the six age-group counts recoded for a sex sum to
the sum of the 19 raw fine-grained age fields attributed to that sex
(B01001_007E..B01001_025E for Male, B01001_031E..B01001_049E for Female):
each raw field goes to exactly one group, none left out, none double-counted. -/
theorem c7_age_recode_sum (row : Row) :
    (nsum ((recodeAge row "Male").map Prod.snd)
        = nsum ((List.range' 7 19).map fun n => getValue row (b01001Key n)))
    ∧ (nsum ((recodeAge row "Female").map Prod.snd)
        = nsum ((List.range' 31 19).map fun n => getValue row (b01001Key n)))
    ∧ (List.range' 7 19).map b01001Key =
        ["B01001_007E", "B01001_008E", "B01001_009E", "B01001_010E", "B01001_011E",
         "B01001_012E", "B01001_013E", "B01001_014E", "B01001_015E", "B01001_016E",
         "B01001_017E", "B01001_018E", "B01001_019E", "B01001_020E", "B01001_021E",
         "B01001_022E", "B01001_023E", "B01001_024E", "B01001_025E"]
    ∧ (List.range' 31 19).map b01001Key =
        ["B01001_031E", "B01001_032E", "B01001_033E", "B01001_034E", "B01001_035E",
         "B01001_036E", "B01001_037E", "B01001_038E", "B01001_039E", "B01001_040E",
         "B01001_041E", "B01001_042E", "B01001_043E", "B01001_044E", "B01001_045E",
         "B01001_046E", "B01001_047E", "B01001_048E", "B01001_049E"] := by
  refine ⟨?_, ?_, by decide, by decide⟩
  · simp [recodeAge, nsum, List.range', nadd_assoc, nadd_zero_left]
  · simp [recodeAge, nsum, List.range', nadd_assoc, nadd_zero_left]

/-- C8: on the synthetic TX-32 record (male 18-19 = 1000, White = 2000,
Bachelor's = 1500, all else absent) the build produces exactly the one cell
(Male, 18-24, White, BA/BS) for TX-32 with population 1000, skips nothing,
and the female slice is empty. -/
theorem c8_end_to_end_example :
    buildLoop 2023 [row0] = ([c0row], 0)
    ∧ c0row.population = 1000
    ∧ sexSliceCells 2023 "TX" "TX-32" "South" row0 "Female" = [] :=
  ⟨buildLoop_row0, rfl, sexSlice_row0_female⟩

/-- C9: for every record, the five education counts sum to the sum of the 24
raw attainment fields B15003_002E..B15003_025E: the five labels partition the
attainment fields, none omitted, none double-counted. -/
theorem c9_education_recode_sum (row : Row) :
    nsum ((recodeEducation row).map Prod.snd)
      = nsum ((["B15003_002E", "B15003_003E", "B15003_004E", "B15003_005E",
          "B15003_006E", "B15003_007E", "B15003_008E", "B15003_009E", "B15003_010E",
          "B15003_011E", "B15003_012E", "B15003_013E", "B15003_014E", "B15003_015E",
          "B15003_016E", "B15003_017E", "B15003_018E", "B15003_019E", "B15003_020E",
          "B15003_021E", "B15003_022E", "B15003_023E", "B15003_024E", "B15003_025E"]).map
          (getValue row)) := by
  simp [recodeEducation, nsum, nadd_assoc, nadd_zero_left]

/-- C10: the reported `cellsStored` (accumulated as the sum of the lengths of
the slices the storage loop takes off the generated list) always equals
`cellsGenerated`. -/
theorem c10_cells_stored_eq_generated (year : Int) (rows : List Row) :
    (buildPoststratTable year rows).cellsStored
      = (buildPoststratTable year rows).cellsGenerated := by
  simp only [buildPoststratTable]
  exact batchLoop_eq_length (buildLoop year rows).1.length _ le_rfl
